import Mathlib

set_option linter.unnecessarySeqFocus false

/-!
Verification of `eventhandler.py` (exitmap's Tor event handler).

The Python class `EventHandler` is shallowly embedded as pure functions over
an explicit state record `EHState`.  Side effects (log calls, the attach
command sent to the Tor controller, spawning a probe worker process, putting
the shutdown sentinel on the IPC queue) are collected in an `Action` list.
Python exceptions that escape a handler are modelled by an `Option PyExn`
field of the result; side effects performed before the raise are kept.

Module-level mutable globals touched by the handler (the process-wide
`socket.socket` replacement and the `mysocks` queue tag set by
`mysocks.setqueue`) are modelled as fields `socketIsProxy` and `queueTag`
of the state record.
-/

namespace Exitmap

/-- `stem.StreamStatus` values relevant to the handler, plus two of the
remaining statuses so that "any other status" is representable. -/
inductive StreamStatus where
  | NEW | NEWRESOLVE | CLOSED | FAILED | DETACHED | REMAP | SUCCEEDED
deriving DecidableEq, Repr

/-- `stem.CircStatus` values relevant to the handler, plus two of the
remaining statuses so that "any other status" is representable. -/
inductive CircStatus where
  | BUILT | FAILED | CLOSED | LAUNCHED | EXTENDED
deriving DecidableEq, Repr

/-- A circuit event from the daemon: `circEvent.id`, `circEvent.status`,
`circEvent.reason` (present on FAILED/CLOSED) and `circEvent.path`, a list
of hops, each a (fingerprint, nickname) pair. -/
structure CircuitEvent where
  id : Nat
  status : CircStatus
  reason : Option String
  path : List (String × String)
deriving DecidableEq, Repr

/-- A stream event from the daemon.  `sourcePort` is the result of
`util.getSourcePort(str(streamEvent))`.  Modelled from the spec: `util.py`
is not under src/; per the spec the extraction parses a source port from the
event's address metadata and can fail, so the field holds `none` exactly
when extraction fails. -/
structure StreamEvent where
  id : Nat
  status : StreamStatus
  sourcePort : Option Nat
deriving DecidableEq, Repr

/-- A Tor controller event as dispatched by `newEvent`: a circuit event, a
stream event, or anything else. -/
inductive Event where
  | circ (e : CircuitEvent)
  | stream (e : StreamEvent)
  | other
deriving DecidableEq, Repr

/-- A pending attacher stored in `self.attachers`: the source stores
`functools.partial(self._attachStream, streamID=...)` (stream side arrived
first) or `functools.partial(self._attachStream, circuitID=...)` (circuit
side arrived first).  The circuit ID comes straight off the IPC queue and
so is an `Option Nat`. -/
inductive Pending where
  | withStream (streamID : Nat)
  | withCircuit (circuitID : Option Nat)
deriving DecidableEq, Repr

/-- Python exceptions that can escape the embedded code, and `SystemExit`
raised by `exit(code)`. -/
inductive PyExn where
  | nameError
  | typeError
  | indexError
  | operationFailed
  | systemExit (code : Nat)
deriving DecidableEq, Repr

/-- Observable side effects of the handler, in program order. -/
inductive Action where
  | logInfoReason (reason : Option String)
  | logInfoBuilt (fingerprint : String)
  | spawnWorker (fingerprint : String) (circuitID : Nat)
  | logDebugAdding
  | logDebugQueue
  | logDebugAttach (streamID circuitID : Option Nat)
  | attachCmd (streamID circuitID : Option Nat)
  | logErrorAttachFailed
  | logErrorNoPort
  | logDebugStats
  | restoreSocket
  | queuePutSentinel
  | logInfoFinished
deriving DecidableEq, Repr

/-- The counters of the shared `stats` object (`self.stats`). -/
structure ScanStats where
  totalCircuits : Nat
  successfulCircuits : Nat
  failedCircuits : Nat
deriving DecidableEq, Repr

/-- The mutable state of an `EventHandler` plus the module-level globals it
touches: `socketIsProxy` is true while `socket.socket` is replaced by
`mysocks.socksocket`, and `queueTag` is the circuit ID last installed by
`mysocks.setqueue` (a single process-wide value). -/
structure EHState where
  stats : ScanStats
  finishedStreams : Nat
  attachers : List (Nat × Pending)
  socketIsProxy : Bool
  queueTag : Option Nat
deriving DecidableEq, Repr

/-- Result of running one handler: final state, emitted actions in order,
and the exception that escaped, if any. -/
structure Res where
  state : EHState
  actions : List Action
  exn : Option PyExn
deriving DecidableEq, Repr

/-- Result of one iteration of the `queueReader` loop body; `stop` is true
when the `break` on the sentinel was taken. -/
structure QRes where
  state : EHState
  actions : List Action
  exn : Option PyExn
  stop : Bool
deriving DecidableEq, Repr

/-- `self.ourStreamEvents` from `__init__`. -/
def ourStreamEvents : List StreamStatus :=
  [.NEW, .NEWRESOLVE, .CLOSED, .FAILED, .DETACHED]

/-- `self.ourCircuitEvents` from `__init__`. -/
def ourCircuitEvents : List CircStatus :=
  [.BUILT, .FAILED, .CLOSED]

/-- `self.attachers[port]` lookup (`has_key` + subscript). -/
def lookupAttacher : List (Nat × Pending) → Nat → Option Pending
  | [], _ => none
  | (k, v) :: rest, port => if k = port then some v else lookupAttacher rest port

/-- `del self.attachers[port]`. -/
def eraseAttacher (port : Nat) : List (Nat × Pending) → List (Nat × Pending)
  | [] => []
  | (k, v) :: rest =>
      if k = port then eraseAttacher port rest else (k, v) :: eraseAttacher port rest

/-- `self.attachers[port] = ...` (Python dict assignment replaces). -/
def insertAttacher (port : Nat) (p : Pending) (m : List (Nat × Pending)) :
    List (Nat × Pending) :=
  (port, p) :: eraseAttacher port m

/-- The fresh state built by `__init__` for a scan of `total` circuits:
counters zero, empty attacher map, original `socket.socket`, no queue tag. -/
def initState (total : Nat) : EHState :=
  ⟨⟨total, 0, 0⟩, 0, [], false, none⟩

/-- `self.torCtrl.attach_stream(streamID, circuitID)`.  Modelled from the
spec: `stem` is an external collaborator; its only contract here is "attach
this stream to this circuit", failing with an `OperationFailed` exactly when
the daemon rejects the command.  The oracle `dk` tells whether the daemon
accepts a given (streamID, circuitID) pair. -/
def attach_stream (dk : Option Nat → Option Nat → Bool)
    (streamID circuitID : Option Nat) : Except PyExn Unit :=
  if dk streamID circuitID then .ok () else .error .operationFailed

/-- `EventHandler._attachStream`: log, try the attach command, catch
`stem.OperationFailed` and log it.  Touches no handler state. -/
def _attachStream (dk : Option Nat → Option Nat → Bool)
    (streamID circuitID : Option Nat) (s : EHState) : Res :=
  match attach_stream dk streamID circuitID with
  | .ok _ =>
      ⟨s, [Action.logDebugAttach streamID circuitID,
           Action.attachCmd streamID circuitID], none⟩
  | .error _ =>
      ⟨s, [Action.logDebugAttach streamID circuitID,
           Action.attachCmd streamID circuitID,
           Action.logErrorAttachFailed], none⟩

/-- `EventHandler.isFinished`: log the counters, and when all circuits are
done and every built circuit's stream has finished, restore `socket.socket`,
put the `(None, None)` sentinel on the queue, log the final statistics and
call `exit(0)` (which raises `SystemExit(0)`). -/
def isFinished (s : EHState) : Res :=
  if (s.stats.failedCircuits + s.stats.successfulCircuits = s.stats.totalCircuits) ∧
     (s.stats.successfulCircuits ≤ s.finishedStreams) then
    ⟨{ s with socketIsProxy := false },
      [Action.logDebugStats, Action.restoreSocket, Action.queuePutSentinel,
       Action.logInfoFinished],
      some (.systemExit 0)⟩
  else
    ⟨s, [Action.logDebugStats], none⟩

/-- `EventHandler.newCircuit`.  FAILED/CLOSED increment `failedCircuits` and
log the reason; BUILT increments `successfulCircuits`, reads the exit
fingerprint from `circEvent.path[-1][0]` (an `IndexError` on an empty path),
flips the global socket class to the SOCKS proxy, installs the circuit ID as
the global `mysocks` queue tag and spawns the probing-module worker; other
statuses return immediately. -/
def newCircuit (circEvent : CircuitEvent) (s : EHState) : Res :=
  if circEvent.status ∈ ourCircuitEvents then
    if circEvent.status = .FAILED ∨ circEvent.status = .CLOSED then
      ⟨{ s with stats := { s.stats with failedCircuits := s.stats.failedCircuits + 1 } },
        [Action.logInfoReason circEvent.reason], none⟩
    else
      let s1 : EHState :=
        { s with stats := { s.stats with
                            successfulCircuits := s.stats.successfulCircuits + 1 } }
      match circEvent.path.getLast? with
      | none => ⟨s1, [], some .indexError⟩
      | some hop =>
          ⟨{ s1 with socketIsProxy := true, queueTag := some circEvent.id },
            [Action.logInfoBuilt hop.1, Action.spawnWorker hop.1 circEvent.id],
            none⟩
  else ⟨s, [], none⟩

/-- `EventHandler.newStream`.  CLOSED/FAILED/DETACHED increment
`finishedStreams`; NEW/NEWRESOLVE extract the source port (log an error and
drop the event when that fails), then either complete a pending circuit-side
attacher — after which `del self.attachers[port]` raises a `NameError`
because `port` is an unbound name in this method — or register a pending
stream-side attacher.  Calling a stored stream-side attacher with a second
`streamID` keyword would raise a `TypeError` (duplicate keyword argument).
Other statuses return immediately. -/
def newStream (dk : Option Nat → Option Nat → Bool)
    (streamEvent : StreamEvent) (s : EHState) : Res :=
  if streamEvent.status ∈ ourStreamEvents then
    if streamEvent.status = .CLOSED ∨ streamEvent.status = .FAILED ∨
       streamEvent.status = .DETACHED then
      ⟨{ s with finishedStreams := s.finishedStreams + 1 }, [], none⟩
    else
      match streamEvent.sourcePort with
      | none => ⟨s, [Action.logErrorNoPort], none⟩
      | some sourcePort =>
          match lookupAttacher s.attachers sourcePort with
          | some (.withCircuit circuitID) =>
              let r := _attachStream dk (some streamEvent.id) circuitID s
              ⟨r.state, Action.logDebugAdding :: r.actions, some .nameError⟩
          | some (.withStream _) =>
              ⟨s, [Action.logDebugAdding], some .typeError⟩
          | none =>
              ⟨{ s with attachers :=
                   insertAttacher sourcePort (.withStream streamEvent.id) s.attachers },
                [Action.logDebugAdding], none⟩
  else ⟨s, [], none⟩

/-- One iteration of the `queueReader` loop body on one queue message
`(circID, sockname)`.  The sentinel `(None, None)` breaks out of the loop;
otherwise `sockname[1]` is the port (`sockname[0]` on `None` raises a
`TypeError`), and the attacher map is consulted: a pending stream-side
attacher is called and the entry deleted (here `port` IS in scope), a
pending circuit-side attacher would be called with a duplicate `circuitID`
keyword (`TypeError`), and with no pending entry a circuit-side attacher is
stored. -/
def queueStep (dk : Option Nat → Option Nat → Bool)
    (msg : Option Nat × Option (String × Nat)) (s : EHState) : QRes :=
  if msg.1 = none ∧ msg.2 = none then
    ⟨s, [], none, true⟩
  else
    match msg.2 with
    | none => ⟨s, [], some .typeError, false⟩
    | some sockname =>
        let port := sockname.2
        match lookupAttacher s.attachers port with
        | some (.withStream streamID) =>
            let r := _attachStream dk (some streamID) msg.1 s
            ⟨{ r.state with attachers := eraseAttacher port r.state.attachers },
              Action.logDebugQueue :: r.actions, none, false⟩
        | some (.withCircuit _) =>
            ⟨s, [Action.logDebugQueue], some .typeError, false⟩
        | none =>
            ⟨{ s with attachers :=
                 insertAttacher port (.withCircuit msg.1) s.attachers },
              [Action.logDebugQueue], none, false⟩

/-- The dispatch part of `EventHandler.newEvent` (lines 193-200): route the
event by type.  The `else` branch is `logger.warning("..." % str(event))`
whose format string has no conversion specifier, so the `%` raises a
`TypeError` before anything is logged. -/
def dispatch (dk : Option Nat → Option Nat → Bool)
    (event : Event) (s : EHState) : Res :=
  match event with
  | .circ e => newCircuit e s
  | .stream e => newStream dk e s
  | .other => ⟨s, [], some .typeError⟩

/-- `EventHandler.newEvent`: dispatch, then — only when the handler returned
normally — run `isFinished`.  An exception raised by a handler skips the
completion check and escapes `newEvent`. -/
def newEvent (dk : Option Nat → Option Nat → Bool)
    (event : Event) (s : EHState) : Res :=
  let r := dispatch dk event s
  match r.exn with
  | some _ => r
  | none =>
      let f := isFinished r.state
      ⟨f.state, r.actions ++ f.actions, f.exn⟩

/-- Run a finite sequence of daemon events through `newEvent`, threading the
state (the stem transport delivers each event to `newEvent` in order). -/
def runTrace (dk : Option Nat → Option Nat → Bool) :
    List Event → EHState → EHState
  | [], s => s
  | ev :: rest, s => runTrace dk rest (newEvent dk ev s).state

/-- The spec's completion condition, stated on the counters exactly as §4.7
words it: `successfulCircuits + failedCircuits == totalCircuits` and
`finishedStreams >= successfulCircuits`. -/
def scanComplete (s : EHState) : Prop :=
  s.stats.successfulCircuits + s.stats.failedCircuits = s.stats.totalCircuits ∧
  s.stats.successfulCircuits ≤ s.finishedStreams

instance (s : EHState) : Decidable (scanComplete s) := by
  unfold scanComplete; infer_instance

/-- Is this event a BUILT circuit event? -/
def isBuiltEvent : Event → Bool
  | .circ e => match e.status with | .BUILT => true | _ => false
  | _ => false

/-- Is this event a FAILED or CLOSED circuit event? -/
def isFailedClosedEvent : Event → Bool
  | .circ e => match e.status with | .FAILED => true | .CLOSED => true | _ => false
  | _ => false

/-- Is this event a CLOSED, FAILED or DETACHED stream event? -/
def isFinishingStreamEvent : Event → Bool
  | .stream e =>
      match e.status with
      | .CLOSED => true | .FAILED => true | .DETACHED => true | _ => false
  | _ => false

/-- Number of BUILT circuit events in a trace. -/
def countBuilt (tr : List Event) : Nat := tr.countP isBuiltEvent

/-- Number of FAILED/CLOSED circuit events in a trace. -/
def countFailedClosed (tr : List Event) : Nat := tr.countP isFailedClosedEvent

/-- Number of finishing (CLOSED/FAILED/DETACHED) stream events in a trace. -/
def countFinishing (tr : List Event) : Nat := tr.countP isFinishingStreamEvent

/-! ### Helper lemmas -/

theorem _attachStream_state (dk : Option Nat → Option Nat → Bool)
    (sid cid : Option Nat) (s : EHState) : (_attachStream dk sid cid s).state = s := by
  unfold _attachStream attach_stream
  by_cases h : dk sid cid <;> simp [h]

theorem _attachStream_exn (dk : Option Nat → Option Nat → Bool)
    (sid cid : Option Nat) (s : EHState) : (_attachStream dk sid cid s).exn = none := by
  unfold _attachStream attach_stream
  by_cases h : dk sid cid <;> simp [h]

theorem _attachStream_cmd (dk : Option Nat → Option Nat → Bool)
    (sid cid : Option Nat) (s : EHState) :
    Action.attachCmd sid cid ∈ (_attachStream dk sid cid s).actions := by
  unfold _attachStream attach_stream
  by_cases h : dk sid cid <;> simp [h]

/-! ### C7 — a rejected attach command is logged and non-fatal -/

/-- C7: when the daemon rejects the attach command (`dk` answers false, so
`attach_stream` raises `OperationFailed`), `_attachStream` catches it, logs
the failure, and returns normally: no exception escapes and the state —
counters and pending map included — is returned unchanged. -/
theorem attach_rejection_nonfatal (dk : Option Nat → Option Nat → Bool)
    (sid cid : Option Nat) (s : EHState) (hrej : dk sid cid = false) :
    _attachStream dk sid cid s =
      ⟨s, [Action.logDebugAttach sid cid, Action.attachCmd sid cid,
           Action.logErrorAttachFailed], none⟩ := by
  unfold _attachStream attach_stream
  simp [hrej]

/-- The daemon oracle that rejects every attach command. -/
def dkFalse : Option Nat → Option Nat → Bool := fun _ _ => false

/-- The daemon oracle that accepts every attach command. -/
def dkTrue : Option Nat → Option Nat → Bool := fun _ _ => true

theorem attach_rejection_nonfatal_witness :
    dkFalse (some 7) (some 1) = false ∧
    _attachStream dkFalse (some 7) (some 1) (initState 3) =
      ⟨initState 3, [Action.logDebugAttach (some 7) (some 1),
        Action.attachCmd (some 7) (some 1), Action.logErrorAttachFailed], none⟩ :=
  ⟨rfl, attach_rejection_nonfatal dkFalse (some 7) (some 1) (initState 3) rfl⟩

/-! ### C2 — the completion check is a pure function of the counters -/

/-- C2: `isFinished` fires the shutdown (raising `SystemExit 0`) exactly when
`successfulCircuits + failedCircuits = totalCircuits` and
`finishedStreams ≥ successfulCircuits`; in particular when every circuit
failed (`successfulCircuits = 0`, `failedCircuits = totalCircuits`) it fires
immediately, and while either condition is false it triggers nothing and
leaves the state untouched. -/
theorem isFinished_iff_counters (s : EHState) :
    ((isFinished s).exn = some (.systemExit 0) ↔ scanComplete s) ∧
    (s.stats.successfulCircuits = 0 → s.stats.failedCircuits = s.stats.totalCircuits →
      (isFinished s).exn = some (.systemExit 0)) ∧
    (¬ scanComplete s → isFinished s = ⟨s, [Action.logDebugStats], none⟩) := by
  refine ⟨?_, ?_, ?_⟩ <;>
    · simp only [isFinished, scanComplete]
      by_cases h1 : s.stats.failedCircuits + s.stats.successfulCircuits =
        s.stats.totalCircuits <;>
      by_cases h2 : s.stats.successfulCircuits ≤ s.finishedStreams <;>
        simp [h1, h2] <;> omega

theorem isFinished_iff_counters_witness :
    (isFinished ⟨⟨2, 0, 2⟩, 0, [], true, none⟩).exn = some (.systemExit 0) :=
  (isFinished_iff_counters ⟨⟨2, 0, 2⟩, 0, [], true, none⟩).2.1 rfl rfl

/-! ### C9 — the shutdown sequence and its order -/

/-- C9: when the completion condition holds, `isFinished` (the completion
check run by `newEvent` after each event) performs, in order: restore the
global socket override to its default, put the sentinel on the correlation
queue, log the final statistics, and then terminate the process by raising
`SystemExit 0`; when the condition does not hold it performs none of these —
it only logs the debug counters and returns the state unchanged. -/
theorem shutdown_sequence (s : EHState) :
    (scanComplete s →
      isFinished s =
        ⟨{ s with socketIsProxy := false },
          [Action.logDebugStats, Action.restoreSocket, Action.queuePutSentinel,
           Action.logInfoFinished],
          some (.systemExit 0)⟩) ∧
    (¬ scanComplete s →
      (isFinished s).exn = none ∧ (isFinished s).state = s ∧
      (isFinished s).actions = [Action.logDebugStats]) := by
  refine ⟨?_, ?_⟩ <;>
    · simp only [isFinished, scanComplete]
      by_cases h1 : s.stats.failedCircuits + s.stats.successfulCircuits =
        s.stats.totalCircuits <;>
      by_cases h2 : s.stats.successfulCircuits ≤ s.finishedStreams <;>
        simp [h1, h2] <;> omega

theorem shutdown_sequence_witness :
    scanComplete ⟨⟨2, 1, 1⟩, 1, [], true, some 1⟩ ∧
    isFinished ⟨⟨2, 1, 1⟩, 1, [], true, some 1⟩ =
      ⟨⟨⟨2, 1, 1⟩, 1, [], false, some 1⟩,
        [Action.logDebugStats, Action.restoreSocket, Action.queuePutSentinel,
         Action.logInfoFinished],
        some (.systemExit 0)⟩ :=
  ⟨by decide, (shutdown_sequence ⟨⟨2, 1, 1⟩, 1, [], true, some 1⟩).1 (by decide)⟩

/-! ### C5 — circuit event handling -/

/-- C5: a FAILED or CLOSED circuit event increments `failedCircuits` and logs
the daemon-supplied reason, and does nothing else (the result is exactly that
state and that one log action); a BUILT circuit event with a nonempty path
increments `successfulCircuits`, takes the exit fingerprint from the last hop
of the path, and spawns the probe worker with `(exitFingerprint, circuitID)`
(also flipping the global socket override and queue tag); a circuit event
with any other status changes nothing. -/
theorem newCircuit_cases (e : CircuitEvent) (s : EHState) :
    ((e.status = .FAILED ∨ e.status = .CLOSED) →
      newCircuit e s =
        ⟨{ s with stats :=
             { s.stats with failedCircuits := s.stats.failedCircuits + 1 } },
          [Action.logInfoReason e.reason], none⟩) ∧
    (e.status = .BUILT → ∀ hp : e.path ≠ [],
      newCircuit e s =
        ⟨{ s with
            stats := { s.stats with
                       successfulCircuits := s.stats.successfulCircuits + 1 },
            socketIsProxy := true, queueTag := some e.id },
          [Action.logInfoBuilt (e.path.getLast hp).1,
           Action.spawnWorker (e.path.getLast hp).1 e.id], none⟩) ∧
    (e.status ∉ ourCircuitEvents → newCircuit e s = ⟨s, [], none⟩) := by
  obtain ⟨cid, st, reason, path⟩ := e
  refine ⟨?_, ?_, ?_⟩
  · rintro (h | h) <;> subst h <;> rfl
  · rintro rfl hp
    have hl : path.getLast? = some (path.getLast hp) :=
      List.getLast?_eq_getLast_of_ne_nil hp
    simp [newCircuit, ourCircuitEvents, hl]
  · intro h
    simp [newCircuit, h]

theorem newCircuit_cases_witness :
    newCircuit ⟨4, .FAILED, some "TIMEOUT", []⟩ (initState 3) =
      ⟨{ initState 3 with stats :=
           { (initState 3).stats with
             failedCircuits := (initState 3).stats.failedCircuits + 1 } },
        [Action.logInfoReason (some "TIMEOUT")], none⟩ ∧
    newCircuit ⟨5, .BUILT, none, [("FPR", "nick")]⟩ (initState 3) =
      ⟨⟨⟨3, 1, 0⟩, 0, [], true, some 5⟩,
        [Action.logInfoBuilt "FPR", Action.spawnWorker "FPR" 5], none⟩ := by
  constructor
  · exact (newCircuit_cases ⟨4, .FAILED, some "TIMEOUT", []⟩ (initState 3)).1
      (Or.inl rfl)
  · simpa using
      (newCircuit_cases ⟨5, .BUILT, none, [("FPR", "nick")]⟩ (initState 3)).2.1
        rfl (by simp)

/-! ### C6 — stream event handling -/

/-- C6: a CLOSED, FAILED or DETACHED stream event increments
`finishedStreams` and does nothing else (so no attach is attempted and no
port is extracted); a NEW or NEWRESOLVE stream event whose source port
cannot be parsed only logs an error and is dropped, leaving
`finishedStreams` and the attachers map unchanged; a stream event with any
other status changes nothing. -/
theorem newStream_cases (dk : Option Nat → Option Nat → Bool)
    (ev : StreamEvent) (s : EHState) :
    ((ev.status = .CLOSED ∨ ev.status = .FAILED ∨ ev.status = .DETACHED) →
      newStream dk ev s =
        ⟨{ s with finishedStreams := s.finishedStreams + 1 }, [], none⟩) ∧
    ((ev.status = .NEW ∨ ev.status = .NEWRESOLVE) → ev.sourcePort = none →
      newStream dk ev s = ⟨s, [Action.logErrorNoPort], none⟩) ∧
    (ev.status ∉ ourStreamEvents → newStream dk ev s = ⟨s, [], none⟩) := by
  obtain ⟨sid, st, sp⟩ := ev
  refine ⟨?_, ?_, ?_⟩
  · rintro (h | h | h) <;> subst h <;> rfl
  · rintro (h | h) hp <;> subst h <;> subst hp <;> rfl
  · intro h
    simp [newStream, h]

theorem newStream_cases_witness :
    newStream dkTrue ⟨9, .DETACHED, none⟩ (initState 3) =
      ⟨{ initState 3 with
          finishedStreams := (initState 3).finishedStreams + 1 }, [], none⟩ ∧
    newStream dkTrue ⟨9, .NEW, none⟩ (initState 3) =
      ⟨initState 3, [Action.logErrorNoPort], none⟩ := by
  constructor
  · exact (newStream_cases dkTrue ⟨9, .DETACHED, none⟩ (initState 3)).1
      (Or.inr (Or.inr rfl))
  · exact (newStream_cases dkTrue ⟨9, .NEW, none⟩ (initState 3)).2.1
      (Or.inl rfl) rfl

theorem _attachStream_actions_sub (dk : Option Nat → Option Nat → Bool)
    (sid cid : Option Nat) (s : EHState) :
    ∀ a ∈ (_attachStream dk sid cid s).actions,
      a = Action.logDebugAttach sid cid ∨ a = Action.attachCmd sid cid ∨
      a = Action.logErrorAttachFailed := by
  unfold _attachStream attach_stream
  by_cases h : dk sid cid <;> simp [h]

/-! ### C4 — the stream-side-second path raises an uncaught NameError -/

/-- C4: for a NEW/NEWRESOLVE stream event whose source port already has a
pending circuit-side entry, `newEvent` issues the attach command and then
raises a `NameError` (the deletion `del self.attachers[port]` uses the
unbound name `port`): the exception escapes `newEvent`, the state — pending
entry included — is left exactly as it was, and the completion check is
skipped (none of its actions, not even its debug log, occur). -/
theorem pending_circuit_side_nameError (dk : Option Nat → Option Nat → Bool)
    (ev : StreamEvent) (s : EHState) (port : Nat) (cid : Option Nat)
    (hst : ev.status = .NEW ∨ ev.status = .NEWRESOLVE)
    (hport : ev.sourcePort = some port)
    (hpend : lookupAttacher s.attachers port = some (.withCircuit cid)) :
    (newEvent dk (.stream ev) s).exn = some .nameError ∧
    (newEvent dk (.stream ev) s).state = s ∧
    Action.attachCmd (some ev.id) cid ∈ (newEvent dk (.stream ev) s).actions ∧
    Action.logDebugStats ∉ (newEvent dk (.stream ev) s).actions ∧
    Action.restoreSocket ∉ (newEvent dk (.stream ev) s).actions ∧
    Action.queuePutSentinel ∉ (newEvent dk (.stream ev) s).actions := by
  obtain ⟨sid, st, sp⟩ := ev
  simp only at hport
  subst hport
  have hns : newStream dk ⟨sid, st, some port⟩ s =
      ⟨(_attachStream dk (some sid) cid s).state,
        Action.logDebugAdding :: (_attachStream dk (some sid) cid s).actions,
        some .nameError⟩ := by
    rcases hst with h | h <;> subst h <;>
      simp [newStream, ourStreamEvents, hpend]
  have hne : newEvent dk (.stream ⟨sid, st, some port⟩) s =
      ⟨(_attachStream dk (some sid) cid s).state,
        Action.logDebugAdding :: (_attachStream dk (some sid) cid s).actions,
        some .nameError⟩ := by
    simp [newEvent, dispatch, hns]
  rw [hne]
  refine ⟨rfl, _attachStream_state dk (some sid) cid s, ?_, ?_, ?_, ?_⟩
  · exact List.mem_cons_of_mem _ (_attachStream_cmd dk (some sid) cid s)
  all_goals
    intro hmem
    rcases List.mem_cons.mp hmem with h | h
    · simp at h
    · rcases _attachStream_actions_sub dk (some sid) cid s _ h with h' | h' | h' <;>
        simp_all

/-- Pending map with the circuit side (circuit 1, port 5000) arrived first. -/
def sPendingCirc : EHState :=
  ⟨⟨1, 0, 0⟩, 0, [(5000, .withCircuit (some 1))], false, none⟩

theorem pending_circuit_side_nameError_witness :
    (StreamEvent.status ⟨7, .NEW, some 5000⟩ = .NEW ∨
       StreamEvent.status ⟨7, .NEW, some 5000⟩ = .NEWRESOLVE) ∧
    lookupAttacher sPendingCirc.attachers 5000 = some (.withCircuit (some 1)) ∧
    ((newEvent dkTrue (.stream ⟨7, .NEW, some 5000⟩) sPendingCirc).exn =
        some .nameError ∧
      (newEvent dkTrue (.stream ⟨7, .NEW, some 5000⟩) sPendingCirc).state =
        sPendingCirc ∧
      Action.attachCmd (some 7) (some 1) ∈
        (newEvent dkTrue (.stream ⟨7, .NEW, some 5000⟩) sPendingCirc).actions) :=
  ⟨Or.inl rfl, by decide,
    by
      have h := pending_circuit_side_nameError dkTrue ⟨7, .NEW, some 5000⟩
        sPendingCirc 5000 (some 1) (Or.inl rfl) rfl (by decide)
      exact ⟨h.1, h.2.1, h.2.2.1⟩⟩

/-! ### C1 — the rendezvous in both arrival orders, evaluated -/

/-- C1: evaluation of the two arrival orders for port 5000 on a 1-circuit
scan with an accepting daemon.  Stream side first: the queue message
completes the rendezvous, exactly one attach command with the correct pair
(streamID 7, circuitID 1) is issued, and the pending entry is removed.
Circuit side first: the stream event issues the one correct attach command
but then raises `NameError`, and — contrary to the claim — the pending
entry for port 5000 is still in the attachers map afterwards. -/
theorem rendezvous_orders_eval :
    (((newEvent dkTrue (.stream ⟨7, .NEW, some 5000⟩) (initState 1)).exn = none) ∧
      ((queueStep dkTrue (some 1, some ("127.0.0.1", 5000))
          (newEvent dkTrue (.stream ⟨7, .NEW, some 5000⟩) (initState 1)).state).exn
        = none) ∧
      (((newEvent dkTrue (.stream ⟨7, .NEW, some 5000⟩) (initState 1)).actions ++
         (queueStep dkTrue (some 1, some ("127.0.0.1", 5000))
           (newEvent dkTrue (.stream ⟨7, .NEW, some 5000⟩)
             (initState 1)).state).actions).count
        (Action.attachCmd (some 7) (some 1)) = 1) ∧
      (lookupAttacher
        (queueStep dkTrue (some 1, some ("127.0.0.1", 5000))
          (newEvent dkTrue (.stream ⟨7, .NEW, some 5000⟩)
            (initState 1)).state).state.attachers 5000 = none)) ∧
    (((newEvent dkTrue (.stream ⟨7, .NEW, some 5000⟩)
        (queueStep dkTrue (some 1, some ("127.0.0.1", 5000))
          (initState 1)).state).exn = some .nameError) ∧
      (((queueStep dkTrue (some 1, some ("127.0.0.1", 5000))
           (initState 1)).actions ++
        (newEvent dkTrue (.stream ⟨7, .NEW, some 5000⟩)
          (queueStep dkTrue (some 1, some ("127.0.0.1", 5000))
            (initState 1)).state).actions).count
        (Action.attachCmd (some 7) (some 1)) = 1) ∧
      (lookupAttacher
        (newEvent dkTrue (.stream ⟨7, .NEW, some 5000⟩)
          (queueStep dkTrue (some 1, some ("127.0.0.1", 5000))
            (initState 1)).state).state.attachers 5000 =
        some (.withCircuit (some 1)))) := by
  decide

theorem lookup_insertAttacher (k : Nat) (p : Pending) (m : List (Nat × Pending)) :
    lookupAttacher (insertAttacher k p m) k = some p := by
  simp [insertAttacher, lookupAttacher]

theorem lookup_eraseAttacher (k : Nat) (m : List (Nat × Pending)) :
    lookupAttacher (eraseAttacher k m) k = none := by
  induction m with
  | nil => rfl
  | cons hd tl ih =>
      obtain ⟨k', v⟩ := hd
      by_cases h : k' = k <;> simp [eraseAttacher, lookupAttacher, h, ih]

/-! ### C8 — only the sentinel stops the queue consumer -/

/-- C8: one iteration of the `queueReader` loop takes the `break` exactly on
the sentinel `(None, None)`; any well-formed data message `(circID,
sockname)` — provided its port has no duplicate circuit-side entry already
pending, which the design's port-uniqueness assumption rules out — keeps the
consumer in the loop with no exception, and is handed to the resolver as
the circuit side: either a circuit-side entry is stored for the port, or
the pending stream side is completed by an attach command with the stored
stream ID and the message's circuit ID and the entry is deleted. -/
theorem queueStep_sentinel_only_stop (dk : Option Nat → Option Nat → Bool)
    (msg : Option Nat × Option (String × Nat)) (s : EHState)
    (hnodup : ∀ sn, msg.2 = some sn →
      ∀ c, lookupAttacher s.attachers sn.2 ≠ some (.withCircuit c)) :
    ((queueStep dk msg s).stop = true ↔ msg = (none, none)) ∧
    (∀ sn, msg.2 = some sn →
      (queueStep dk msg s).stop = false ∧ (queueStep dk msg s).exn = none ∧
      ((lookupAttacher s.attachers sn.2 = none ∧
          lookupAttacher (queueStep dk msg s).state.attachers sn.2 =
            some (.withCircuit msg.1)) ∨
       (∃ sid, lookupAttacher s.attachers sn.2 = some (.withStream sid) ∧
          Action.attachCmd (some sid) msg.1 ∈ (queueStep dk msg s).actions ∧
          lookupAttacher (queueStep dk msg s).state.attachers sn.2 = none))) := by
  obtain ⟨c0, so⟩ := msg
  constructor
  · cases so with
    | none =>
        cases c0 with
        | none => simp [queueStep]
        | some c => simp [queueStep]
    | some sn =>
        rcases hl : lookupAttacher s.attachers sn.2 with _ | p
        · simp [queueStep, hl]
        · cases p with
          | withStream sid => simp [queueStep, hl]
          | withCircuit c => exact absurd hl (hnodup sn rfl c)
  · intro sn hso
    simp only at hso
    subst hso
    rcases hl : lookupAttacher s.attachers sn.2 with _ | p
    · refine ⟨by simp [queueStep, hl], by simp [queueStep, hl], Or.inl ⟨rfl, ?_⟩⟩
      simp [queueStep, hl, lookup_insertAttacher]
    · cases p with
      | withStream sid =>
          refine ⟨by simp [queueStep, hl], by simp [queueStep, hl],
            Or.inr ⟨sid, rfl, ?_, ?_⟩⟩
          · simp [queueStep, hl, _attachStream_cmd dk (some sid) c0 s]
          · simp [queueStep, hl, _attachStream_state, lookup_eraseAttacher]
      | withCircuit c' => exact absurd hl (hnodup sn rfl c')

theorem queueStep_sentinel_only_stop_witness :
    ((queueStep dkTrue (none, none) (initState 1)).stop = true) ∧
    ((queueStep dkTrue (some 1, some ("127.0.0.1", 5000)) (initState 1)).stop
        = false ∧
      (queueStep dkTrue (some 1, some ("127.0.0.1", 5000)) (initState 1)).exn
        = none) := by
  have hn : ∀ sn : String × Nat,
      (some 1, some ("127.0.0.1", 5000)).2 = some sn →
      ∀ c, lookupAttacher (initState 1).attachers sn.2 ≠
        some (.withCircuit c) := by
    intro sn hsn c
    simp [initState, lookupAttacher]
  constructor
  · exact (queueStep_sentinel_only_stop dkTrue (none, none) (initState 1)
      (by intro sn hsn; cases hsn)).1.mpr rfl
  · have h := (queueStep_sentinel_only_stop dkTrue
      (some 1, some ("127.0.0.1", 5000)) (initState 1) hn).2
      ("127.0.0.1", 5000) rfl
    exact ⟨h.1, h.2.1⟩

/-! ### C10 — the routing tag is a single shared global, flipped per circuit -/

/-- C10 counterexample: on a 2-circuit scan the BUILT handler spawns worker
1 after setting the single process-wide queue tag to circuit 1, and the next
BUILT event flips that same shared tag to circuit 2 — so the tag recorded
for worker 1 is not private: after worker 2 starts, the one global routing
configuration no longer names circuit 1.  This refutes "the routing tag is
private per worker, never a single shared global configuration flipped
between circuit IDs". -/
theorem shared_tag_counterexample :
    (newCircuit ⟨1, .BUILT, none, [("FPRA", "na")]⟩
        (initState 2)).state.queueTag = some 1 ∧
    Action.spawnWorker "FPRA" 1 ∈
      (newCircuit ⟨1, .BUILT, none, [("FPRA", "na")]⟩ (initState 2)).actions ∧
    (newCircuit ⟨2, .BUILT, none, [("FPRB", "nb")]⟩
        (newCircuit ⟨1, .BUILT, none, [("FPRA", "na")]⟩
          (initState 2)).state).state.queueTag = some 2 ∧
    (newCircuit ⟨2, .BUILT, none, [("FPRB", "nb")]⟩
        (newCircuit ⟨1, .BUILT, none, [("FPRA", "na")]⟩
          (initState 2)).state).state.queueTag ≠ some 1 := by
  decide

/-- C10 amended: in the source the routing configuration is a single
process-wide global, not a per-worker private tag: every BUILT circuit event
replaces the global socket class with the proxying one and sets the one
shared `mysocks` queue tag to that circuit's ID, and only then spawns the
worker — so starting a worker for another circuit overwrites the tag
installed for the previous one. -/
theorem shared_global_tag (e : CircuitEvent) (s : EHState)
    (hb : e.status = .BUILT) (hp : e.path ≠ []) :
    (newCircuit e s).state.queueTag = some e.id ∧
    (newCircuit e s).state.socketIsProxy = true ∧
    Action.spawnWorker (e.path.getLast hp).1 e.id ∈ (newCircuit e s).actions := by
  obtain ⟨cid, st, reason, path⟩ := e
  subst hb
  have hl : path.getLast? = some (path.getLast hp) :=
    List.getLast?_eq_getLast_of_ne_nil hp
  simp [newCircuit, ourCircuitEvents, hl]

theorem shared_global_tag_witness :
    (newCircuit ⟨5, .BUILT, none, [("FPR", "n")]⟩
        (initState 2)).state.queueTag = some 5 ∧
    (newCircuit ⟨5, .BUILT, none, [("FPR", "n")]⟩
        (initState 2)).state.socketIsProxy = true ∧
    Action.spawnWorker "FPR" 5 ∈
      (newCircuit ⟨5, .BUILT, none, [("FPR", "n")]⟩ (initState 2)).actions := by
  have h := shared_global_tag ⟨5, .BUILT, none, [("FPR", "n")]⟩ (initState 2)
    rfl (by simp)
  simpa using h

/-! ### C3 — counter invariants along every event trace -/

theorem isFinished_counters (s : EHState) :
    (isFinished s).state.stats = s.stats ∧
    (isFinished s).state.finishedStreams = s.finishedStreams := by
  unfold isFinished
  split <;> simp

theorem newCircuit_counters (e : CircuitEvent) (s : EHState) :
    (newCircuit e s).state.stats.totalCircuits = s.stats.totalCircuits ∧
    (newCircuit e s).state.stats.successfulCircuits =
      s.stats.successfulCircuits + (if isBuiltEvent (.circ e) then 1 else 0) ∧
    (newCircuit e s).state.stats.failedCircuits =
      s.stats.failedCircuits + (if isFailedClosedEvent (.circ e) then 1 else 0) ∧
    (newCircuit e s).state.finishedStreams = s.finishedStreams := by
  obtain ⟨cid, st, reason, path⟩ := e
  cases st <;> rcases hl : path.getLast? with _ | hop <;>
    simp [newCircuit, ourCircuitEvents, isBuiltEvent, isFailedClosedEvent, hl]

theorem newStream_counters (dk : Option Nat → Option Nat → Bool)
    (ev : StreamEvent) (s : EHState) :
    (newStream dk ev s).state.stats = s.stats ∧
    (newStream dk ev s).state.finishedStreams =
      s.finishedStreams + (if isFinishingStreamEvent (.stream ev) then 1 else 0) := by
  obtain ⟨sid, st, sp⟩ := ev
  cases sp with
  | none =>
      cases st <;> simp [newStream, ourStreamEvents, isFinishingStreamEvent]
  | some port =>
      rcases hl : lookupAttacher s.attachers port with _ | p
      · cases st <;>
          simp [newStream, ourStreamEvents, isFinishingStreamEvent, hl]
      · cases p <;> cases st <;>
          simp [newStream, ourStreamEvents, isFinishingStreamEvent, hl,
            _attachStream_state]

theorem newEvent_state_counters (dk : Option Nat → Option Nat → Bool)
    (ev : Event) (s : EHState) :
    (newEvent dk ev s).state.stats = (dispatch dk ev s).state.stats ∧
    (newEvent dk ev s).state.finishedStreams =
      (dispatch dk ev s).state.finishedStreams := by
  unfold newEvent
  cases h : (dispatch dk ev s).exn <;> simp [h, isFinished_counters]

theorem newEvent_counters (dk : Option Nat → Option Nat → Bool)
    (ev : Event) (s : EHState) :
    (newEvent dk ev s).state.stats.totalCircuits = s.stats.totalCircuits ∧
    (newEvent dk ev s).state.stats.successfulCircuits =
      s.stats.successfulCircuits + (if isBuiltEvent ev then 1 else 0) ∧
    (newEvent dk ev s).state.stats.failedCircuits =
      s.stats.failedCircuits + (if isFailedClosedEvent ev then 1 else 0) ∧
    (newEvent dk ev s).state.finishedStreams =
      s.finishedStreams + (if isFinishingStreamEvent ev then 1 else 0) := by
  obtain ⟨h1, h2⟩ := newEvent_state_counters dk ev s
  rw [h1, h2]
  cases ev with
  | circ e =>
      have h := newCircuit_counters e s
      simpa [dispatch, isFinishingStreamEvent] using h
  | stream e =>
      have h := newStream_counters dk e s
      rw [dispatch, h.1, h.2]
      simp [isBuiltEvent, isFailedClosedEvent]
  | other =>
      simp [dispatch, isBuiltEvent, isFailedClosedEvent, isFinishingStreamEvent]

theorem runTrace_counters (dk : Option Nat → Option Nat → Bool)
    (tr : List Event) (s : EHState) :
    (runTrace dk tr s).stats.totalCircuits = s.stats.totalCircuits ∧
    (runTrace dk tr s).stats.successfulCircuits =
      s.stats.successfulCircuits + countBuilt tr ∧
    (runTrace dk tr s).stats.failedCircuits =
      s.stats.failedCircuits + countFailedClosed tr ∧
    (runTrace dk tr s).finishedStreams = s.finishedStreams + countFinishing tr := by
  induction tr generalizing s with
  | nil => simp [runTrace, countBuilt, countFailedClosed, countFinishing]
  | cons ev rest ih =>
      obtain ⟨h1, h2, h3, h4⟩ := newEvent_counters dk ev s
      obtain ⟨g1, g2, g3, g4⟩ := ih ((newEvent dk ev s).state)
      refine ⟨?_, ?_, ?_, ?_⟩ <;>
        · simp only [runTrace, countBuilt, countFailedClosed, countFinishing,
            List.countP_cons] at *
          cases hb : isBuiltEvent ev <;> cases hf : isFailedClosedEvent ev <;>
            cases hs : isFinishingStreamEvent ev <;> simp_all <;> omega

/-- C3: along any daemon-event trace in which the terminal circuit events
(BUILT, FAILED or CLOSED — i.e. at most one per circuit of the scan) number
at most `totalCircuits`, and in which every prefix has at most as many
finishing stream events as BUILT events (each built circuit's stream
finishes at most once, and only after its circuit is built), the handler
state after every prefix satisfies
`successfulCircuits + failedCircuits ≤ totalCircuits` and
`finishedStreams ≤ successfulCircuits`. -/
theorem counters_invariant (dk : Option Nat → Option Nat → Bool) (total : Nat)
    (tr : List Event)
    (hterm : countBuilt tr + countFailedClosed tr ≤ total)
    (hfin : ∀ n, countFinishing (tr.take n) ≤ countBuilt (tr.take n)) (n : Nat) :
    (runTrace dk (tr.take n) (initState total)).stats.successfulCircuits +
        (runTrace dk (tr.take n) (initState total)).stats.failedCircuits ≤
      (runTrace dk (tr.take n) (initState total)).stats.totalCircuits ∧
    (runTrace dk (tr.take n) (initState total)).finishedStreams ≤
      (runTrace dk (tr.take n) (initState total)).stats.successfulCircuits := by
  obtain ⟨h1, h2, h3, h4⟩ := runTrace_counters dk (tr.take n) (initState total)
  have hsplitB : countBuilt (tr.take n) + countBuilt (tr.drop n) = countBuilt tr := by
    unfold countBuilt
    rw [← List.countP_append, List.take_append_drop]
  have hsplitF : countFailedClosed (tr.take n) + countFailedClosed (tr.drop n) =
      countFailedClosed tr := by
    unfold countFailedClosed
    rw [← List.countP_append, List.take_append_drop]
  have hf := hfin n
  refine ⟨?_, ?_⟩
  · rw [h1, h2, h3]
    simp only [initState]
    omega
  · rw [h4, h2]
    simp only [initState]
    omega

/-- A concrete 1-circuit trace: the circuit builds, then its stream closes. -/
def trWitness : List Event :=
  [.circ ⟨1, .BUILT, none, [("F", "n")]⟩, .stream ⟨7, .CLOSED, none⟩]

theorem counters_invariant_witness :
    (runTrace dkTrue (trWitness.take 2) (initState 1)).stats.successfulCircuits +
        (runTrace dkTrue (trWitness.take 2) (initState 1)).stats.failedCircuits ≤
      (runTrace dkTrue (trWitness.take 2) (initState 1)).stats.totalCircuits ∧
    (runTrace dkTrue (trWitness.take 2) (initState 1)).finishedStreams ≤
      (runTrace dkTrue (trWitness.take 2) (initState 1)).stats.successfulCircuits := by
  have hfin : ∀ n, countFinishing (trWitness.take n) ≤ countBuilt (trWitness.take n) := by
    intro n
    match n with
    | 0 => decide
    | 1 => decide
    | (k + 2) =>
        have ht : trWitness.take (k + 2) = trWitness := by
          simp [trWitness, List.take_succ_cons, List.take_nil]
        rw [ht]
        decide
  exact counters_invariant dkTrue 1 trWitness (by decide) hfin 2

end Exitmap
